import Mathlib

/-!
Shallow embedding of the pomodoro-style timer widget (src/app/page.tsx).

The zustand store holds all timer state; each store operation is modelled as a
pure function on `TimerSt`. JavaScript numbers that hold times are modelled as
`Int` (the duration inputs can be negative before clamping). The `setInterval`
/ `clearInterval` handles are modelled explicitly: `intervalId` is the handle
stored in the state (`NodeJS.Timeout | null`), `liveHandles` is the list of
interval handles that have been created and not yet cancelled, and `nextId`
supplies fresh handle identifiers. The notification sound is an external side
effect (audio playback) and does not influence the state transitions, so it is
not part of the state.
-/

set_option maxRecDepth 4000

/-- The timer store state (interface `TimerState` in src/app/page.tsx),
restricted to its data fields. `workTime`, `breakTime`, `remainingTime` are in
seconds. -/
structure TimerSt where
  workTime : Int
  breakTime : Int
  remainingTime : Int
  isRunning : Bool
  isWorkSession : Bool
  intervalId : Option Nat
  liveHandles : List Nat
  nextId : Nat
deriving DecidableEq, Repr

/-- The initial store state: `workTime: 50 * 60, breakTime: 10 * 60,
remainingTime: 50 * 60, isRunning: false, isWorkSession: true,
intervalId: null`. -/
def initState : TimerSt :=
  { workTime := 50 * 60
    breakTime := 10 * 60
    remainingTime := 50 * 60
    isRunning := false
    isWorkSession := true
    intervalId := none
    liveHandles := []
    nextId := 0 }

/-- `clearInterval(id)`: cancels the handle `id` if it is non-null (removes it
from the live handles); `clearInterval(null)` is a no-op. -/
def clearHandle (oid : Option Nat) (lh : List Nat) : List Nat :=
  match oid with
  | some id => lh.filter (· != id)
  | none => lh

/-- `startTimer` (src/app/page.tsx lines 46-84): no-op if `isRunning`; if
`remainingTime === 0`, resets it to the current session's full time; then sets
`isRunning: true`, registers the interval via `setInterval` and stores its
handle in `intervalId`. -/
def startTimer (s : TimerSt) : TimerSt :=
  if s.isRunning then s
  else
    let s1 := if s.remainingTime = 0 then
        { s with remainingTime := if s.isWorkSession then s.workTime else s.breakTime }
      else s
    let id := s1.nextId
    { s1 with
        isRunning := true
        intervalId := some id
        liveHandles := s1.liveHandles ++ [id]
        nextId := id + 1 }

/-- The `setInterval` tick callback (src/app/page.tsx lines 62-82): if
`remainingTime <= 0`, clears the stored interval handle, flips
`isWorkSession`, sets `remainingTime` to the new session's full duration and
stops (`isRunning: false, intervalId: null`); otherwise decrements
`remainingTime` by 1. (The notification sound played on completion is an
external effect with no bearing on the state.) -/
def tick (s : TimerSt) : TimerSt :=
  if s.remainingTime ≤ 0 then
    { s with
        isRunning := false
        isWorkSession := !s.isWorkSession
        remainingTime := if !s.isWorkSession then s.workTime else s.breakTime
        intervalId := none
        liveHandles := clearHandle s.intervalId s.liveHandles }
  else
    { s with remainingTime := s.remainingTime - 1 }

/-- `pauseTimer` (src/app/page.tsx lines 86-92): clears the stored interval
handle if non-null; sets `isRunning: false, intervalId: null`. -/
def pauseTimer (s : TimerSt) : TimerSt :=
  { s with
      isRunning := false
      intervalId := none
      liveHandles := clearHandle s.intervalId s.liveHandles }

/-- `resetTimer` (src/app/page.tsx lines 94-101): calls `pauseTimer`, then
sets `remainingTime` to the current session type's full duration,
`isRunning: false, intervalId: null`. -/
def resetTimer (s : TimerSt) : TimerSt :=
  let p := pauseTimer s
  { p with
      remainingTime := if p.isWorkSession then p.workTime else p.breakTime
      isRunning := false
      intervalId := none }

/-- `skipSession` (src/app/page.tsx lines 103-115): calls `pauseTimer`, flips
`isWorkSession`, sets `remainingTime` to the new session type's full duration,
`isRunning: false, intervalId: null`. -/
def skipSession (s : TimerSt) : TimerSt :=
  let p := pauseTimer s
  let nextIsWorkSession := !p.isWorkSession
  { p with
      isWorkSession := nextIsWorkSession
      remainingTime := if nextIsWorkSession then p.workTime else p.breakTime
      isRunning := false
      intervalId := none }

/-- `handleSetWorkTime` (src/app/page.tsx lines 139-151) committing the draft
work minutes `d`: `newWorkTime = Math.max(1, Math.min(d, 120)) * 60`;
`setWorkTime(newWorkTime)`; if `isWorkSession && !isRunning` then
`setRemainingTime(newWorkTime)`. -/
def handleSetWorkTime (d : Int) (s : TimerSt) : TimerSt :=
  let newWorkTime := (max 1 (min d 120)) * 60
  if s.isWorkSession && !s.isRunning then
    { s with workTime := newWorkTime, remainingTime := newWorkTime }
  else
    { s with workTime := newWorkTime }

/-- `handleSetBreakTime` (src/app/page.tsx lines 153-165) committing the draft
break minutes `d`: `newBreakTime = Math.max(1, Math.min(d, 60)) * 60`;
`setBreakTime(newBreakTime)`; if `!isWorkSession && !isRunning` then
`setRemainingTime(newBreakTime)`. -/
def handleSetBreakTime (d : Int) (s : TimerSt) : TimerSt :=
  let newBreakTime := (max 1 (min d 60)) * 60
  if !s.isWorkSession && !s.isRunning then
    { s with breakTime := newBreakTime, remainingTime := newBreakTime }
  else
    { s with breakTime := newBreakTime }

/-- Two-digit zero padding, as the date-fns format tokens `mm`/`ss` pad their
field to two digits. -/
def pad2 (n : Nat) : String :=
  if n < 10 then "0" ++ toString n else toString n

/-- The display expression `format(new Date(remainingTime * 1000), "mm:ss")`
(src/app/page.tsx line 179). `new Date(s * 1000)` is the epoch plus `s`
seconds; the date-fns token `mm` is the two-digit minute-of-hour of that
instant and `ss` its two-digit second, so (in a timezone at a whole-hour
offset) the rendered string is `(s / 60) % 60` and `s % 60`, each zero-padded
to two digits. -/
def formatMMSS (s : Nat) : String :=
  pad2 (s / 60 % 60) ++ ":" ++ pad2 (s % 60)

/-- The display format as the spec sentence states it: the zero-padded string
MM:SS where MM = remainingSeconds div 60 and SS = remainingSeconds mod 60
(for comparison with `formatMMSS`, which embeds the source). -/
def specMMSS (s : Nat) : String :=
  pad2 (s / 60) ++ ":" ++ pad2 (s % 60)

/-- The configured duration of the currently active session type. -/
def activeDuration (s : TimerSt) : Int :=
  if s.isWorkSession then s.workTime else s.breakTime

/-- The spec's state invariant: `remainingSeconds` is at most the duration of
the currently active session type. -/
def timerInv (s : TimerSt) : Prop :=
  s.remainingTime ≤ activeDuration s

instance (s : TimerSt) : Decidable (timerInv s) := by
  unfold timerInv; infer_instance

/-- The states reachable from the initial store state by the public operations
and the interval tick. A tick can only fire while its interval is live, hence
the `liveHandles ≠ []` guard on the tick step. -/
inductive Reachable : TimerSt → Prop where
  | init : Reachable initState
  | start {s} : Reachable s → Reachable (startTimer s)
  | pause {s} : Reachable s → Reachable (pauseTimer s)
  | reset {s} : Reachable s → Reachable (resetTimer s)
  | skip {s} : Reachable s → Reachable (skipSession s)
  | tickFires {s} : Reachable s → s.liveHandles ≠ [] → Reachable (tick s)
  | setWork {s} (d : Int) : Reachable s → Reachable (handleSetWorkTime d s)
  | setBreak {s} (d : Int) : Reachable s → Reachable (handleSetBreakTime d s)

/-- Handle accounting invariant: either the timer is stopped with no stored
handle and no live interval, or it is running with exactly one live interval
whose handle is the stored one. -/
def HandleInv (s : TimerSt) : Prop :=
  (s.isRunning = false ∧ s.intervalId = none ∧ s.liveHandles = []) ∨
  (∃ id, s.isRunning = true ∧ s.intervalId = some id ∧ s.liveHandles = [id])

/-- C5: for every integer minute value `d`, committing the work duration
stores `clamp(d,1,120) * 60` seconds in `workTime` (leaving `breakTime`
unchanged) and committing the break duration stores `clamp(d,1,60) * 60`
seconds in `breakTime` (leaving `workTime` unchanged); the work commit sets
`remainingTime` to the new value exactly when the current session is a work
session and the timer is not running, and leaves it unchanged otherwise
(symmetrically for the break commit). -/
theorem setDuration_clamps (d : Int) (s : TimerSt) :
    (handleSetWorkTime d s).workTime = (max 1 (min d 120)) * 60 ∧
    (handleSetWorkTime d s).breakTime = s.breakTime ∧
    (handleSetWorkTime d s).remainingTime =
      (if s.isWorkSession && !s.isRunning then (max 1 (min d 120)) * 60
       else s.remainingTime) ∧
    (handleSetBreakTime d s).breakTime = (max 1 (min d 60)) * 60 ∧
    (handleSetBreakTime d s).workTime = s.workTime ∧
    (handleSetBreakTime d s).remainingTime =
      (if !s.isWorkSession && !s.isRunning then (max 1 (min d 60)) * 60
       else s.remainingTime) := by
  unfold handleSetWorkTime handleSetBreakTime
  by_cases hw : s.isWorkSession && !s.isRunning <;>
    by_cases hb : !s.isWorkSession && !s.isRunning <;>
      simp [hw, hb]

/-- C6: for every state, `resetTimer` sets `remainingTime` to the full
configured duration of the current session type, sets `isRunning` to false,
and leaves `isWorkSession` and both configured durations unchanged. -/
theorem resetTimer_spec (s : TimerSt) :
    (resetTimer s).remainingTime = activeDuration s ∧
    (resetTimer s).isRunning = false ∧
    (resetTimer s).isWorkSession = s.isWorkSession ∧
    (resetTimer s).workTime = s.workTime ∧
    (resetTimer s).breakTime = s.breakTime := by
  unfold resetTimer pauseTimer activeDuration
  simp

/-- C7: for every state, `skipSession` negates `isWorkSession`, sets
`remainingTime` to the full configured duration of the new session type, sets
`isRunning` to false, and leaves both configured durations unchanged; in
particular from the initial state Stopped(Work, 3000s) with the default
config it yields Stopped(Break, 600s). -/
theorem skipSession_spec (s : TimerSt) :
    (skipSession s).isWorkSession = !s.isWorkSession ∧
    (skipSession s).remainingTime =
      (if !s.isWorkSession then s.workTime else s.breakTime) ∧
    (skipSession s).isRunning = false ∧
    (skipSession s).workTime = s.workTime ∧
    (skipSession s).breakTime = s.breakTime ∧
    (skipSession initState).isWorkSession = false ∧
    (skipSession initState).remainingTime = 600 ∧
    (skipSession initState).isRunning = false := by
  refine ⟨?_, ?_, ?_, ?_, ?_, by decide, by decide, by decide⟩ <;>
    (unfold skipSession pauseTimer; simp)

/-- C10: committing a work-duration edit while the timer is running, or while
the current session is a break session, changes only the stored work
duration: `remainingTime`, `isRunning`, `isWorkSession`, `breakTime`,
`intervalId` and the live interval handles are unchanged; symmetrically, a
break-duration commit while running or during a work session changes only the
stored break duration. -/
theorem setDuration_frame (d : Int) (s : TimerSt) :
    (s.isRunning = true ∨ s.isWorkSession = false →
      (handleSetWorkTime d s).remainingTime = s.remainingTime ∧
      (handleSetWorkTime d s).isRunning = s.isRunning ∧
      (handleSetWorkTime d s).isWorkSession = s.isWorkSession ∧
      (handleSetWorkTime d s).breakTime = s.breakTime ∧
      (handleSetWorkTime d s).intervalId = s.intervalId ∧
      (handleSetWorkTime d s).liveHandles = s.liveHandles) ∧
    (s.isRunning = true ∨ s.isWorkSession = true →
      (handleSetBreakTime d s).remainingTime = s.remainingTime ∧
      (handleSetBreakTime d s).isRunning = s.isRunning ∧
      (handleSetBreakTime d s).isWorkSession = s.isWorkSession ∧
      (handleSetBreakTime d s).workTime = s.workTime ∧
      (handleSetBreakTime d s).intervalId = s.intervalId ∧
      (handleSetBreakTime d s).liveHandles = s.liveHandles) := by
  constructor
  · intro h
    have hc : (s.isWorkSession && !s.isRunning) = false := by
      rcases h with h | h <;> simp [h]
    unfold handleSetWorkTime
    simp [hc]
  · intro h
    have hc : (!s.isWorkSession && !s.isRunning) = false := by
      rcases h with h | h <;> simp [h]
    unfold handleSetBreakTime
    simp [hc]

/-- C10 witness: the frame conditions instantiated at `d = 5` in the running
state reached by starting the initial timer. -/
theorem setDuration_frame_witness :
    (handleSetWorkTime 5 (startTimer initState)).remainingTime =
        (startTimer initState).remainingTime ∧
    (handleSetBreakTime 5 (startTimer initState)).remainingTime =
        (startTimer initState).remainingTime :=
  ⟨((setDuration_frame 5 (startTimer initState)).1 (Or.inl (by decide))).1,
   ((setDuration_frame 5 (startTimer initState)).2 (Or.inl (by decide))).1⟩

/-- C4 counterexample: in the state Stopped(Work, remainingTime = 0) — e.g.
after pausing a timer that has counted down to 0 — `startTimer` resets
`remainingTime` to the full work duration, so `startTimer` followed
immediately by `pauseTimer` does not leave `remainingTime` at its pre-start
value 0. -/
theorem start_pause_changes_at_zero :
    (pauseTimer (startTimer
        (⟨3000, 600, 0, false, true, none, [], 0⟩ : TimerSt))).remainingTime ≠
      (⟨3000, 600, 0, false, true, none, [], 0⟩ : TimerSt).remainingTime := by
  decide

/-- C4 (amended): for every state in which `remainingTime` is non-zero or the
timer is already running, calling `startTimer` and then immediately
`pauseTimer` (zero ticks in between) leaves `remainingTime` equal to its value
before the `startTimer` call. (When the timer is stopped with
`remainingTime = 0`, `startTimer` first resets it to the session's full
duration, so the round trip leaves that instead.) -/
theorem start_pause_preserves_remaining (s : TimerSt)
    (h : s.remainingTime ≠ 0 ∨ s.isRunning = true) :
    (pauseTimer (startTimer s)).remainingTime = s.remainingTime := by
  by_cases hr : s.isRunning
  · unfold startTimer pauseTimer
    simp [hr]
  · have hz : ¬ s.remainingTime = 0 := by
      rcases h with h | h
      · exact h
      · exact absurd h hr
    unfold startTimer pauseTimer
    simp [hr, hz]

/-- C4 witness: the start-then-pause round trip at the initial state
(remainingTime = 3000 ≠ 0). -/
theorem start_pause_preserves_remaining_witness :
    (pauseTimer (startTimer initState)).remainingTime =
      initState.remainingTime :=
  start_pause_preserves_remaining initState (Or.inl (by decide))

/-- If the timer is already running, `startTimer` returns the state
unchanged. -/
theorem startTimer_of_running (s : TimerSt) (h : s.isRunning = true) :
    startTimer s = s := by
  unfold startTimer
  simp [h]

/-- After `startTimer`, the timer is running. -/
theorem startTimer_isRunning (s : TimerSt) :
    (startTimer s).isRunning = true := by
  by_cases h : s.isRunning
  · rw [startTimer_of_running s h]; exact h
  · unfold startTimer; simp [h]

/-- C8: `startTimer` is a no-op when `isRunning` is already true; when the
timer is stopped with `remainingTime = 0` it first resets `remainingTime` to
the full duration of the current session type and sets `isRunning` to true;
and calling `startTimer` twice in a row has exactly the same effect on the
state as calling it once. -/
theorem startTimer_idem (s : TimerSt) :
    (s.isRunning = true → startTimer s = s) ∧
    (s.isRunning = false → s.remainingTime = 0 →
      (startTimer s).remainingTime = activeDuration s ∧
      (startTimer s).isRunning = true) ∧
    startTimer (startTimer s) = startTimer s := by
  refine ⟨startTimer_of_running s, ?_, ?_⟩
  · intro hr hz
    unfold startTimer activeDuration
    simp [hr, hz]
  · exact startTimer_of_running (startTimer s) (startTimer_isRunning s)

/-- C8 witness: the no-op guard applied to the running state
`startTimer initState`, and the reset-at-zero clause applied to the state
Stopped(Work, 0). -/
theorem startTimer_idem_witness :
    startTimer (startTimer initState) = startTimer initState ∧
    (startTimer (⟨3000, 600, 0, false, true, none, [], 0⟩ : TimerSt)).remainingTime =
      activeDuration (⟨3000, 600, 0, false, true, none, [], 0⟩ : TimerSt) ∧
    (startTimer (⟨3000, 600, 0, false, true, none, [], 0⟩ : TimerSt)).isRunning = true :=
  ⟨(startTimer_idem (startTimer initState)).1 (by decide),
   (startTimer_idem (⟨3000, 600, 0, false, true, none, [], 0⟩ : TimerSt)).2.1
     (by decide) (by decide)⟩

/-- C1 counterexample: in the reachable running work-session state
`startTimer initState` the invariant holds, but committing a work duration of
1 minute (a public operation, allowed while running) leaves
`remainingTime = 3000` above the new `workTime = 60`, so the invariant is not
preserved by every public operation. -/
theorem timerInv_not_preserved :
    timerInv (startTimer initState) ∧
    ¬ timerInv (handleSetWorkTime 1 (startTimer initState)) := by
  decide

/-- C1 (amended): the invariant `remainingTime ≤ duration of the active
session type` is preserved by `startTimer`, `pauseTimer`, `resetTimer`,
`skipSession` and by the tick; the duration commits preserve it except when
the edited session type is the one currently running (a work-duration commit
while a work session is running, or a break-duration commit while a break
session is running, can drop the configured duration below the untouched
`remainingTime`). -/
theorem timerInv_preserved (s : TimerSt) (h : timerInv s) :
    timerInv (startTimer s) ∧
    timerInv (pauseTimer s) ∧
    timerInv (resetTimer s) ∧
    timerInv (skipSession s) ∧
    timerInv (tick s) ∧
    (∀ d : Int, ¬(s.isRunning = true ∧ s.isWorkSession = true) →
      timerInv (handleSetWorkTime d s)) ∧
    (∀ d : Int, ¬(s.isRunning = true ∧ s.isWorkSession = false) →
      timerInv (handleSetBreakTime d s)) := by
  unfold timerInv activeDuration at *
  refine ⟨?_, ?_, ?_, ?_, ?_, ?_, ?_⟩
  · unfold startTimer
    by_cases hr : s.isRunning
    · simpa [hr] using h
    · by_cases hz : s.remainingTime = 0
      · simp [hr, hz]
      · simpa [hr, hz] using h
  · unfold pauseTimer
    simpa using h
  · unfold resetTimer pauseTimer
    simp
  · unfold skipSession pauseTimer
    simp
  · unfold tick
    by_cases hz : s.remainingTime ≤ 0
    · cases hw : s.isWorkSession <;> simp [hz, hw]
    · rw [if_neg hz]
      cases hw : s.isWorkSession <;> simp_all <;> omega
  · intro d hd
    unfold handleSetWorkTime
    by_cases hw : s.isWorkSession
    · have hr : s.isRunning = false := by
        cases hri : s.isRunning
        · rfl
        · exact absurd ⟨hri, hw⟩ hd
      simp [hw, hr]
    · simp only [Bool.not_eq_true] at hw
      simp [hw]
      simpa [hw] using h
  · intro d hd
    unfold handleSetBreakTime
    by_cases hw : s.isWorkSession
    · simp [hw]
      simpa [hw] using h
    · simp only [Bool.not_eq_true] at hw
      have hr : s.isRunning = false := by
        cases hri : s.isRunning
        · rfl
        · exact absurd ⟨hri, hw⟩ hd
      simp [hw, hr]

/-- C1 witness: the amended preservation theorem instantiated at the initial
state, whose invariant holds; the duration-commit clauses instantiated at
`d = 1` (the initial state is not running). -/
theorem timerInv_preserved_witness :
    timerInv (startTimer initState) ∧
    timerInv (pauseTimer initState) ∧
    timerInv (resetTimer initState) ∧
    timerInv (skipSession initState) ∧
    timerInv (tick initState) ∧
    timerInv (handleSetWorkTime 1 initState) ∧
    timerInv (handleSetBreakTime 1 initState) := by
  have h := timerInv_preserved initState (by decide)
  exact ⟨h.1, h.2.1, h.2.2.1, h.2.2.2.1, h.2.2.2.2.1,
    h.2.2.2.2.2.1 1 (by decide), h.2.2.2.2.2.2 1 (by decide)⟩

/-- A tick with time still on the clock only decrements `remainingTime`. -/
theorem tick_of_pos (s : TimerSt) (h : 0 < s.remainingTime) :
    tick s = { s with remainingTime := s.remainingTime - 1 } := by
  unfold tick
  rw [if_neg (by omega)]

/-- Iterating the tick `n` times while at least `n` seconds remain decrements
`remainingTime` by `n` and changes nothing else. -/
theorem tick_iterate (n : Nat) (s : TimerSt)
    (h : (n : Int) ≤ s.remainingTime) :
    tick^[n] s = { s with remainingTime := s.remainingTime - (n : Int) } := by
  induction n generalizing s with
  | zero => simp
  | succ n ih =>
    have h0 : 0 < s.remainingTime := by
      have : ((n : Int) + 1) ≤ s.remainingTime := by exact_mod_cast h
      omega
    rw [Function.iterate_succ_apply, tick_of_pos s h0,
      ih _ (by simp; push_cast at h ⊢; omega)]
    simp only [TimerSt.mk.injEq, true_and, and_true]
    omega

/-- C2 counterexample: starting the initial timer (Stopped(Work, 3000s),
default config work=3000s, break=600s) and running the tick handler 3000
times consecutively does NOT perform the session-completion transition: the
state is still a running work session with `remainingTime = 0`, because the
tick callback tests `remainingTime <= 0` before decrementing, so the
transition only fires on the following (3001st) tick. -/
theorem tick3000_no_transition :
    (tick^[3000] (startTimer initState)).isRunning = true ∧
    (tick^[3000] (startTimer initState)).isWorkSession = true ∧
    (tick^[3000] (startTimer initState)).remainingTime = 0 := by
  have hs : startTimer initState =
      (⟨3000, 600, 3000, true, true, some 0, [0], 1⟩ : TimerSt) := by decide
  rw [hs, tick_iterate 3000 _ (by decide)]
  refine ⟨rfl, rfl, by decide⟩

/-- C2 (amended): starting the initial timer Stopped(Work, 3000s) with the
default config (work=3000s, break=600s) and running the tick handler 3001
times consecutively performs the session-completion transition exactly once —
after each of the first 3000 ticks the state is still a running work session,
and the 3001st tick flips to a break session with the full break duration and
`isRunning = false` (no auto-continuation of running). -/
theorem tick3001_transitions_once :
    (∀ k, k ≤ 3000 →
      (tick^[k] (startTimer initState)).isWorkSession = true ∧
      (tick^[k] (startTimer initState)).isRunning = true) ∧
    tick^[3001] (startTimer initState) =
      (⟨3000, 600, 600, false, false, none, [], 1⟩ : TimerSt) := by
  have hs : startTimer initState =
      (⟨3000, 600, 3000, true, true, some 0, [0], 1⟩ : TimerSt) := by decide
  constructor
  · intro k hk
    rw [hs, tick_iterate k _ (by show (k : Int) ≤ 3000; exact_mod_cast hk)]
    exact ⟨rfl, rfl⟩
  · rw [hs, show (3001 : Nat) = 3000 + 1 from rfl,
      Function.iterate_succ_apply',
      tick_iterate 3000 _ (by decide)]
    decide

/-- C2 witness: the no-transition-yet clause instantiated at `k = 0`. -/
theorem tick3001_transitions_once_witness :
    (tick^[0] (startTimer initState)).isWorkSession = true ∧
    (tick^[0] (startTimer initState)).isRunning = true :=
  tick3001_transitions_once.1 0 (by decide)

/-- C3: evaluating the display format. The claimed MM:SS rendering
(`specMMSS`, MM = remainingSeconds div 60) holds at the spec's two stated
instances, 65 → "01:05" and 0 → "00:00", but the source's date-fns
`"mm:ss"` pattern (`formatMMSS`) renders the minute-of-hour, i.e. the minute
count modulo 60: at `remainingSeconds = 7200` (reachable — a 120-minute work
duration is accepted) the code displays "00:00" where the claim requires
"120:00". -/
theorem formatMMSS_eval :
    formatMMSS 65 = "01:05" ∧
    formatMMSS 0 = "00:00" ∧
    formatMMSS 7200 = "00:00" ∧
    specMMSS 7200 = "120:00" ∧
    formatMMSS 7200 ≠ specMMSS 7200 := by
  refine ⟨by decide, by decide, by decide, by decide, by decide⟩

/-- `pauseTimer` leaves no live interval handle when the handle invariant
holds beforehand. -/
theorem pauseTimer_clears (s : TimerSt) (h : HandleInv s) :
    (pauseTimer s).liveHandles = [] := by
  unfold pauseTimer clearHandle
  rcases h with ⟨_, h2, h3⟩ | ⟨id, _, h2, h3⟩ <;> simp [h2, h3]

/-- Each store operation preserves the handle accounting invariant. -/
theorem handleInv_step (s : TimerSt) (h : HandleInv s) :
    HandleInv (startTimer s) ∧ HandleInv (pauseTimer s) ∧
    HandleInv (resetTimer s) ∧ HandleInv (skipSession s) ∧
    HandleInv (tick s) ∧
    (∀ d : Int, HandleInv (handleSetWorkTime d s)) ∧
    (∀ d : Int, HandleInv (handleSetBreakTime d s)) := by
  have hpause : HandleInv (pauseTimer s) := by
    left
    refine ⟨rfl, rfl, pauseTimer_clears s h⟩
  refine ⟨?_, hpause, ?_, ?_, ?_, ?_, ?_⟩
  · rcases h with ⟨h1, h2, h3⟩ | ⟨id, h1, h2, h3⟩
    · unfold startTimer
      rw [if_neg (by simp [h1])]
      by_cases hz : s.remainingTime = 0 <;>
        (right; refine ⟨s.nextId, ?_, ?_, ?_⟩ <;> simp [hz, h3])
    · rw [startTimer_of_running s h1]
      right
      exact ⟨id, h1, h2, h3⟩
  · have := pauseTimer_clears s h
    unfold resetTimer
    left
    refine ⟨rfl, rfl, by simpa using this⟩
  · have := pauseTimer_clears s h
    unfold skipSession
    left
    refine ⟨rfl, rfl, by simpa using this⟩
  · unfold tick
    by_cases hz : s.remainingTime ≤ 0
    · rw [if_pos hz]
      left
      refine ⟨rfl, rfl, ?_⟩
      show clearHandle s.intervalId s.liveHandles = []
      unfold clearHandle
      rcases h with ⟨_, h2, h3⟩ | ⟨id, _, h2, h3⟩ <;> simp [h2, h3]
    · rw [if_neg hz]
      rcases h with ⟨h1, h2, h3⟩ | ⟨id, h1, h2, h3⟩
      · left; exact ⟨h1, h2, h3⟩
      · right; exact ⟨id, h1, h2, h3⟩
  · intro d
    unfold handleSetWorkTime
    rcases h with ⟨h1, h2, h3⟩ | ⟨id, h1, h2, h3⟩ <;> split
    · left; exact ⟨h1, h2, h3⟩
    · left; exact ⟨h1, h2, h3⟩
    · right; exact ⟨id, h1, h2, h3⟩
    · right; exact ⟨id, h1, h2, h3⟩
  · intro d
    unfold handleSetBreakTime
    rcases h with ⟨h1, h2, h3⟩ | ⟨id, h1, h2, h3⟩ <;> split
    · left; exact ⟨h1, h2, h3⟩
    · left; exact ⟨h1, h2, h3⟩
    · right; exact ⟨id, h1, h2, h3⟩
    · right; exact ⟨id, h1, h2, h3⟩

/-- The handle accounting invariant holds in every reachable state. -/
theorem reachable_handleInv (s : TimerSt) (h : Reachable s) : HandleInv s := by
  induction h with
  | init => left; exact ⟨rfl, rfl, rfl⟩
  | start _ ih => exact (handleInv_step _ ih).1
  | pause _ ih => exact (handleInv_step _ ih).2.1
  | reset _ ih => exact (handleInv_step _ ih).2.2.1
  | skip _ ih => exact (handleInv_step _ ih).2.2.2.1
  | tickFires _ _ ih => exact (handleInv_step _ ih).2.2.2.2.1
  | setWork d _ ih => exact (handleInv_step _ ih).2.2.2.2.2.1 d
  | setBreak d _ ih => exact (handleInv_step _ ih).2.2.2.2.2.2 d

/-- C9: in every reachable state at most one interval handle is live, and the
timer is running exactly when the stored handle is non-null (so when
`isRunning` is false no interval is live and no clock is advancing);
moreover `pauseTimer`, `resetTimer` and `skipSession` leave no live handle
(they cancel any live interval before or while mutating the rest of the
state). -/
theorem handle_invariant (s : TimerSt) (h : Reachable s) :
    (s.liveHandles.length ≤ 1 ∧
      (s.isRunning = true ↔ s.intervalId ≠ none) ∧
      (s.isRunning = false → s.liveHandles = [])) ∧
    (pauseTimer s).liveHandles = [] ∧
    (resetTimer s).liveHandles = [] ∧
    (skipSession s).liveHandles = [] := by
  have hi := reachable_handleInv s h
  have hp := pauseTimer_clears s hi
  refine ⟨?_, hp, ?_, ?_⟩
  · rcases hi with ⟨h1, h2, h3⟩ | ⟨id, h1, h2, h3⟩ <;> simp [h1, h2, h3]
  · unfold resetTimer
    simpa using hp
  · unfold skipSession
    simpa using hp

/-- C9 witness: the handle invariant at the (reachable) initial state. -/
theorem handle_invariant_witness :
    (initState.liveHandles.length ≤ 1 ∧
      (initState.isRunning = true ↔ initState.intervalId ≠ none) ∧
      (initState.isRunning = false → initState.liveHandles = [])) ∧
    (pauseTimer initState).liveHandles = [] ∧
    (resetTimer initState).liveHandles = [] ∧
    (skipSession initState).liveHandles = [] :=
  handle_invariant initState Reachable.init
